import Mathlib

/-!
Verification development for the easysuites-ai-service heuristic
detection-and-authentication engine.

The Python services are embedded shallowly:

* Strings are Lean strings; Python string methods (lower, strip, replace,
  slicing, substring membership) are reimplemented over the character list
  of the string so that every definition evaluates by kernel reduction.
* A DOM element handle is an Element value carrying the data the code
  reads through the browser driver: lowercase tag name, attributes,
  inner text, visibility, and the results of the driver-level query and
  evaluate primitives, which the specification treats as an external
  collaborator.  A Page carries the page-level driver state.
* Effectful steps (click, fill, press) are recorded as action traces;
  navigation is modelled by a world record supplying the page state the
  driver would produce at each navigation point.
-/

/-- Python str.lower, restricted to the character-wise lowering the code
relies on for its ASCII selector and keyword comparisons. -/
def pyLower (s : String) : String := ⟨s.data.map Char.toLower⟩

/-- Whether the first character list is an initial segment of the second. -/
def charsLeads : List Char → List Char → Bool
  | [], _ => true
  | _ :: _, [] => false
  | a :: as, b :: bs => a == b && charsLeads as bs

/-- Whether pat occurs as a contiguous run inside s. -/
def charsContainsSub (s pat : List Char) : Bool :=
  match s with
  | [] => pat.isEmpty
  | _ :: rest => charsLeads pat s || charsContainsSub rest pat

/-- Python substring membership: pat in s. -/
def strContains (s pat : String) : Bool := charsContainsSub s.data pat.data

/-- Replacement of every non-overlapping occurrence of pat, left to right,
with explicit fuel so the recursion is structural; the callers pass the
length of the subject string, which always suffices because each step
consumes at least one character. -/
def charsReplaceFuel : Nat → List Char → List Char → List Char → List Char
  | 0, s, _, _ => s
  | Nat.succ n, s, pat, rep =>
    match s with
    | [] => []
    | c :: rest =>
      if !pat.isEmpty && charsLeads pat s then
        rep ++ charsReplaceFuel n (s.drop pat.length) pat rep
      else
        c :: charsReplaceFuel n rest pat rep

/-- Python str.replace. -/
def pyReplace (s pat rep : String) : String :=
  ⟨charsReplaceFuel s.data.length s.data pat.data rep.data⟩

/-- Python str.strip for whitespace. -/
def pyStrip (s : String) : String :=
  ⟨((s.data.dropWhile Char.isWhitespace).reverse.dropWhile Char.isWhitespace).reverse⟩

/-- Python prefix slicing s[:n]. -/
def pyTake (s : String) (n : Nat) : String := ⟨s.data.take n⟩

/-- A DOM element handle as seen through the browser driver: lowercase tag
name, attribute list, inner text, visibility, the element-scoped query
primitives, and the results of the three JavaScript evaluate calls the
service issues on elements (the nth-child CSS path, the XPath expression,
and the ancestor label text). -/
inductive Element where
  | mk :
    (tag : String) →
    (attrs : List (String × String)) →
    (innerText : String) →
    (visible : Bool) →
    (query : String → Option Element) →
    (queryAll : String → List Element) →
    (evalCssPath : String) →
    (evalXPath : String) →
    (evalParentLabel : Option String) →
    Element

/-- Lowercase tag name of the element, the value of the evaluate call
el => el.tagName.toLowerCase(). -/
def Element.tag : Element → String
  | .mk t _ _ _ _ _ _ _ _ => t

/-- Attribute list of the element. -/
def Element.attrs : Element → List (String × String)
  | .mk _ a _ _ _ _ _ _ _ => a

/-- Inner text of the element. -/
def Element.innerText : Element → String
  | .mk _ _ i _ _ _ _ _ _ => i

/-- Driver visibility check for the element. -/
def Element.visible : Element → Bool
  | .mk _ _ _ v _ _ _ _ _ => v

/-- Element-scoped query_selector. -/
def Element.query : Element → String → Option Element
  | .mk _ _ _ _ q _ _ _ _ => q

/-- Element-scoped query_selector_all. -/
def Element.queryAll : Element → String → List Element
  | .mk _ _ _ _ _ qa _ _ _ => qa

/-- Result of the JavaScript evaluate call that walks the ancestors and
builds the nth-child CSS path fallback. -/
def Element.evalCssPath : Element → String
  | .mk _ _ _ _ _ _ p _ _ => p

/-- Result of the JavaScript evaluate call that builds the XPath. -/
def Element.evalXPath : Element → String
  | .mk _ _ _ _ _ _ _ x _ => x

/-- Result of the JavaScript evaluate call that searches the ancestors for
a label element and returns its inner text. -/
def Element.evalParentLabel : Element → Option String
  | .mk _ _ _ _ _ _ _ _ l => l

/-- Driver get_attribute: the attribute value when present. -/
def Element.getAttribute (e : Element) (a : String) : Option String :=
  (e.attrs.find? (fun p => p.fst == a)).map Prod.snd

/-- Python truthiness applied to a get_attribute result: collapses both
absence and the empty string to none. -/
def pyAttr (e : Element) (a : String) : Option String :=
  match e.getAttribute a with
  | some v => if v = "" then none else some v
  | none => none

/-- A loaded page as seen through the browser driver: current URL, title,
inner text of the body, and the page-level query primitives. -/
structure Page where
  url : String
  title : String
  bodyText : String
  query : String → Option Element
  queryAll : String → List Element

/-- Authentication credentials, from src.models.schemas.AuthCredentials. -/
structure AuthCredentials where
  username : String
  password : String
deriving Repr, DecidableEq

/-! ## auth_service: login form detection -/

/-- Ordered selector list of detection strategy 1 in _detect_login_form. -/
def login_selectors : List String :=
  ["form[action*=\"login\"]",
   "form[action*=\"signin\"]",
   "form[action*=\"auth\"]",
   "form#login",
   "form#signin",
   "form.login",
   "form.signin",
   "[data-testid*=\"login\"]",
   "[data-testid*=\"signin\"]",
   "input[name=\"username\"]",
   "input[name=\"password\"]",
   "button[type=\"submit\"]",
   ".oxd-form"]

/-- Selector used inside strategy 2 of _detect_login_form to find a user
identifier input inside a form. -/
def login_form_structure_selector : String :=
  "input[type=\"text\"], input[type=\"email\"], input[name*=\"user\"], input[name*=\"email\"], input[id*=\"user\"], input[id*=\"email\"]"

/-- Keyword list of detection strategy 3 in _detect_login_form. -/
def login_keywords : List String :=
  ["login", "entrar", "sign in", "log in", "acesso", "autenticação"]

/-- Selector used inside strategy 3 of _detect_login_form to count the
text, email and password inputs on the page. -/
def login_inputs_selector : String :=
  "input[type=\"text\"], input[type=\"email\"], input[type=\"password\"]"

/-- Strategy 1 of _detect_login_form: the first specific login selector
with a match on the page. -/
def detector_strategy1 (page : Page) : Option String :=
  login_selectors.findSome? fun sel =>
    if (page.query sel).isSome then some sel else none

/-- OrangeHRM specific check of _detect_login_form: both the username and
the password field are present. -/
def detector_orangehrm (page : Page) : Bool :=
  (page.query "input[name=\"username\"]").isSome &&
  (page.query "input[name=\"password\"]").isSome

/-- Strategy 2 of _detect_login_form: the first form containing both a
user identifier input and a password input. -/
def detector_strategy2 (page : Page) : Option Unit :=
  (page.queryAll "form").findSome? fun form =>
    if (form.query login_form_structure_selector).isSome &&
       (form.query "input[type=\"password\"]").isSome
    then some () else none

/-- Strategy 3 of _detect_login_form: the first login keyword occurring in
the lowered body text while at least two text, email or password inputs
are present. -/
def detector_strategy3 (page : Page) : Option String :=
  login_keywords.findSome? fun keyword =>
    if strContains (pyLower page.bodyText) (pyLower keyword) then
      if 2 ≤ (page.queryAll login_inputs_selector).length then some keyword
      else none
    else none

/-- Embedding of AuthService._detect_login_form: evaluates the detection
strategies in their fixed order, short-circuiting on the first hit, and
returns the detected flag together with the evidence message. -/
def _detect_login_form (page : Page) : Bool × String :=
  match detector_strategy1 page with
  | some sel => (true, "Formulário encontrado: " ++ sel)
  | none =>
    if detector_orangehrm page then
      (true, "Formulário OrangeHRM detectado (campos username/password)")
    else
      match detector_strategy2 page with
      | some _ => (true, "Formulário com campos de usuário e senha encontrado")
      | none =>
        match detector_strategy3 page with
        | some keyword => (true, "Formulário detectado pela palavra-chave: " ++ keyword)
        | none => (false, "Formulário de login não encontrado")

/-! ## auth_service: credential filling -/

/-- Ordered username selector list of _fill_credentials. -/
def username_selectors : List String :=
  ["input[name=\"username\"]",
   "input[name=\"user\"]",
   "input[name=\"email\"]",
   "input[name=\"login\"]",
   "input[id=\"username\"]",
   "input[id=\"user\"]",
   "input[id=\"email\"]",
   "input[id=\"login\"]",
   "input[type=\"email\"]",
   "input[placeholder*=\"usuário\"]",
   "input[placeholder*=\"email\"]",
   "input[placeholder*=\"user\"]"]

/-- Fallback selector of _fill_credentials for the first text or email
input on the page. -/
def fill_fallback_selector : String := "input[type=\"text\"], input[type=\"email\"]"

/-- Username field location of _fill_credentials: the first username
selector with a match, and otherwise the first element matching the
text-or-email fallback selector.  Visibility is not consulted. -/
def find_username_field (page : Page) : Option Element :=
  match username_selectors.findSome? (fun sel => page.query sel) with
  | some field => some field
  | none => (page.queryAll fill_fallback_selector).head?

/-- One recorded page interaction of the credential filler: a click on a
field or a fill of a field with a value, where a fill with the empty
string is the clearing step. -/
inductive FillAction where
  | click : Element → FillAction
  | fill : Element → String → FillAction

/-- Embedding of AuthService._fill_credentials: locates the username field
through the ordered selectors with the first-text-input fallback, locates
the password field as the first input of type password, fails when either
is absent, and otherwise records the click, clear and fill interactions,
username first and password second. -/
def _fill_credentials (page : Page) (credentials : AuthCredentials) :
    (Bool × String) × List FillAction :=
  match find_username_field page with
  | none => ((false, "Campo de usuário não encontrado"), [])
  | some username_field =>
    match page.query "input[type=\"password\"]" with
    | none => ((false, "Campo de senha não encontrado"), [])
    | some password_field =>
      ((true, "Credenciais preenchidas com sucesso"),
       [FillAction.click username_field,
        FillAction.fill username_field "",
        FillAction.fill username_field credentials.username,
        FillAction.click password_field,
        FillAction.fill password_field "",
        FillAction.fill password_field credentials.password])

/-! ## auth_service: form submission -/

/-- Ordered submit button selector list of _submit_form. -/
def submit_selectors : List String :=
  ["button[type=\"submit\"]",
   "input[type=\"submit\"]",
   "button:has-text(\"Entrar\")",
   "button:has-text(\"Login\")",
   "button:has-text(\"Sign in\")",
   "button:has-text(\"Acessar\")",
   "[data-testid*=\"login\"]",
   "[data-testid*=\"submit\"]"]

/-- One recorded page interaction of the submission executor. -/
inductive SubmitAction where
  | clickButton : String → Element → SubmitAction
  | pressEnter : Element → SubmitAction

/-- Embedding of AuthService._submit_form.  The wait_idle_ok argument is
the outcome of the post-click network-idle wait; the Python code catches
the timeout exception and continues, so the result may not depend on it.
Clicks the first submit selector match without a visibility check, falls
back to pressing Enter in the password field, and fails only when neither
a button match nor a password field exists. -/
def _submit_form (page : Page) (wait_idle_ok : Bool) :
    (Bool × String) × List SubmitAction :=
  match submit_selectors.findSome? (fun sel => (page.query sel).map (fun b => (sel, b))) with
  | some (sel, button) =>
    let _ := wait_idle_ok
    ((true, "Formulário submetido via botão: " ++ sel),
     [SubmitAction.clickButton sel button])
  | none =>
    match page.query "input[type=\"password\"]" with
    | some password_field =>
      let _ := wait_idle_ok
      ((true, "Formulário submetido via Enter"),
       [SubmitAction.pressEnter password_field])
    | none => ((false, "Botão de submit não encontrado"), [])

/-! ## auth_service: authentication verification -/

/-- Login URL pattern list of _verify_authentication. -/
def login_url_patterns : List String :=
  ["/login", "/signin", "/auth/login", "/authentication", "/entrar", "/acesso"]

/-- Success URL pattern list of _verify_authentication, kept verbatim from
the source including the entries containing uppercase characters. -/
def success_url_patterns : List String :=
  ["dashboard", "home", "main", "welcome", "index.php",
   "painel", "inicio", "principal", "/pim/", "/admin/",
   "/web/index.php", "viewPersonalDetails", "empNumber"]

/-- Error indicator selector list of _verify_authentication. -/
def error_selectors : List String :=
  [".error", ".alert-danger", ".alert-error",
   "[class*=\"error\"]", "[class*=\"invalid\"]",
   "[data-testid*=\"error\"]"]

/-- Post-login indicator selector list of _verify_authentication. -/
def success_selectors : List String :=
  ["[data-testid*=\"logout\"]",
   "[data-testid*=\"profile\"]",
   "button:has-text(\"Sair\")",
   "button:has-text(\"Logout\")",
   "a:has-text(\"Sair\")",
   "a:has-text(\"Logout\")"]

/-- Username selector used by verification strategy 4. -/
def verifier_username_selector : String :=
  "input[name=\"username\"], input[name=\"user\"], input[name=\"email\"], input[type=\"email\"]"

/-- Login button selector used by verification strategy 4; its result is
queried by the source but never read afterwards. -/
def verifier_login_button_selector : String :=
  "button[type=\"submit\"], input[type=\"submit\"], button:has-text(\"Login\"), button:has-text(\"Entrar\")"

/-- Whether the lowered current URL contains one of the login URL
patterns. -/
def verifier_is_still_on_login (current_url : String) : Bool :=
  login_url_patterns.any fun p => strContains (pyLower current_url) p

/-- The first success URL pattern contained in the lowered current URL. -/
def verifier_url_success (current_url : String) : Option String :=
  success_url_patterns.findSome? fun p =>
    if strContains (pyLower current_url) p then some p else none

/-- Verification strategy 2: the first error selector whose match has
non-empty stripped inner text. -/
def verifier_error_hit (page : Page) : Option String :=
  error_selectors.findSome? fun sel =>
    match page.query sel with
    | some error_element =>
      if pyStrip error_element.innerText ≠ "" then some sel else none
    | none => none

/-- Verification strategy 3: the first post-login indicator selector with
a match on the page. -/
def verifier_success_element (page : Page) : Option String :=
  success_selectors.findSome? fun sel =>
    if (page.query sel).isSome then some sel else none

/-- Embedding of AuthService._verify_authentication.  The current URL is
read from the page once at entry; the final fallback of the source
compares that value with a second read of the same page URL field, which
the static page snapshot renders equal, exactly as the single URL field
of the model does. -/
def _verify_authentication (page : Page) : Bool × String :=
  let current_url := page.url
  let is_still_on_login := verifier_is_still_on_login current_url
  let url_success := if is_still_on_login then none else verifier_url_success current_url
  match url_success with
  | some pattern =>
    (true, "Redirecionamento para página autenticada detectado: " ++ pattern)
  | none =>
    match verifier_error_hit page with
    | some _ => (false, "Erro de autenticação: Invalid credentials")
    | none =>
      match verifier_success_element page with
      | some sel => (true, "Elementos de usuário autenticado detectados: " ++ sel)
      | none =>
        let password_field := page.query "input[type=\"password\"]"
        let username_field := page.query verifier_username_selector
        let _login_button := page.query verifier_login_button_selector
        if password_field.isSome && username_field.isSome then
          (false, "Formulário de login ainda está presente na página")
        else if password_field.isNone && !is_still_on_login then
          (true, "Ausência de formulário de login em página não-login indica sucesso")
        else if !is_still_on_login && (current_url != page.url) then
          (true, "Redirecionamento significativo detectado após login")
        else
          (false, "Não foi possível confirmar o sucesso da autenticação")

/-! ## auth_service: full authentication pipeline -/

/-- Driver world for one authentication attempt: the page state produced
by the navigation in test_authentication, the page state produced by the
navigation at step 0 of perform_authentication, the page state at
verification time after the submission settled, the outcome of the
network-idle wait following the submission click, and whether the session
store write succeeds. -/
structure AuthWorld where
  pageFirstGoto : Page
  pageSecondGoto : Page
  pageAfterSubmit : Page
  submitWaitOk : Bool
  sessionSaveOk : Bool

/-- Embedding of AuthService.perform_authentication: detection, filling,
submission, verification and session saving in order, each stage gating
the next, returning the success flag, the message and the session-saved
flag. -/
def perform_authentication (w : AuthWorld) (credentials : AuthCredentials) :
    Bool × String × Bool :=
  let page := w.pageSecondGoto
  let form := _detect_login_form page
  if !form.1 then
    (false, "Formulário de login não detectado: " ++ form.2, false)
  else
    let fill := (_fill_credentials page credentials).1
    if !fill.1 then
      (false, "Erro ao preencher credenciais: " ++ fill.2, false)
    else
      let submit := (_submit_form page w.submitWaitOk).1
      if !submit.1 then
        (false, "Erro ao submeter formulário: " ++ submit.2, false)
      else
        let verdict := _verify_authentication w.pageAfterSubmit
        if !verdict.1 then
          (false, "Autenticação falhou: Invalid credentials", false)
        else if w.sessionSaveOk then
          (true, "Autenticação realizada com sucesso e sessão salva", true)
        else
          (true, "Autenticação realizada com sucesso mas sessão não foi salva", false)

/-- Result dictionary of AuthService.test_authentication, mirroring the
AuthTestResponse fields the service fills in. -/
structure AuthOutcome where
  success : Bool
  message : String
  authenticated : Bool
  login_detected : Bool
  form_filled : Bool
  submission_successful : Bool
  post_login_url : Option String
  session_saved : Bool
deriving Repr, DecidableEq

/-- Embedding of AuthService.test_authentication: navigates, detects the
login form, runs perform_authentication, and builds the outcome record;
the form_filled and submission_successful entries are assigned the
overall success flag, and the message is replaced by a sanitized one. -/
def test_authentication (w : AuthWorld) (credentials : AuthCredentials) : AuthOutcome :=
  let form := _detect_login_form w.pageFirstGoto
  if !form.1 then
    { success := false
      message := "Formulário de login não detectado: " ++ form.2
      authenticated := false
      login_detected := false
      form_filled := false
      submission_successful := false
      post_login_url := none
      session_saved := false }
  else
    let r := perform_authentication w credentials
    let success := r.1
    let session_saved := r.2.2
    let post_login_url := if success then some w.pageAfterSubmit.url else none
    let sanitized_message :=
      if success then "Autenticação realizada com sucesso"
      else "Autenticação falhou: Invalid credentials"
    { success := success
      message := sanitized_message
      authenticated := success
      login_detected := true
      form_filled := success
      submission_successful := success
      post_login_url := post_login_url
      session_saved := session_saved }

/-! ## session_service -/

/-- Embedding of SessionService._get_session_file_path, filename part:
the URL with the scheme separator, slashes and question marks replaced by
underscores, the username with at-signs and dots replaced, and the fixed
suffix. -/
def session_file_name (url username : String) : String :=
  let safe_url := pyReplace (pyReplace (pyReplace url "://" "_") "/" "_") "?" "_"
  let safe_username := pyReplace (pyReplace username "@" "_at_") "." "_"
  safe_url ++ "_" ++ safe_username ++ "_session.json"

/-- Embedding of SessionService._get_session_file_path: the sessions
directory joined with the derived filename. -/
def _get_session_file_path (sessions_dir url username : String) : String :=
  sessions_dir ++ "/" ++ session_file_name url username

/-- One persisted session record: the metadata the service writes next to
the captured storage state, with the storage state kept as an abstract
payload string. -/
structure SessionData where
  url : String
  username : String
  timestamp : String
  storage_state : String
deriving Repr, DecidableEq

/-- The session directory as a file system: an association of file paths
to session records. -/
abbrev SessionFS : Type := List (String × SessionData)

/-- Write of a file, overwriting any record previously stored under the
same path. -/
def fsWrite (fs : SessionFS) (path : String) (d : SessionData) : SessionFS :=
  (path, d) :: fs.filter fun e => e.fst ≠ path

/-- Read of a file. -/
def fsRead (fs : SessionFS) (path : String) : Option SessionData :=
  (fs.find? fun e => e.fst == path).map Prod.snd

/-- Removal of a file. -/
def fsDelete (fs : SessionFS) (path : String) : SessionFS :=
  fs.filter fun e => e.fst ≠ path

/-- Embedding of SessionService.save_session: writes the record with the
metadata under the derived path, overwriting wholesale, and reports
success. -/
def save_session (fs : SessionFS) (sessions_dir url username timestamp storage_state : String) :
    SessionFS × Bool :=
  let session_file := _get_session_file_path sessions_dir url username
  (fsWrite fs session_file
    { url := url, username := username, timestamp := timestamp,
      storage_state := storage_state }, true)

/-- Embedding of SessionService.load_session: reads the record under the
derived path when it exists. -/
def load_session (fs : SessionFS) (sessions_dir url username : String) : Option SessionData :=
  fsRead fs (_get_session_file_path sessions_dir url username)

/-- Embedding of SessionService.session_exists. -/
def session_exists (fs : SessionFS) (sessions_dir url username : String) : Bool :=
  (fsRead fs (_get_session_file_path sessions_dir url username)).isSome

/-- Embedding of SessionService.delete_session: removes the file under
the derived path when present and reports whether a file was removed. -/
def delete_session (fs : SessionFS) (sessions_dir url username : String) : SessionFS × Bool :=
  let session_file := _get_session_file_path sessions_dir url username
  if (fsRead fs session_file).isSome then (fsDelete fs session_file, true)
  else (fs, false)

/-! ## field_detection_service: field extraction -/

/-- One select option as extracted by the service: the value and text
pair. -/
structure OptionData where
  value : String
  text : String
deriving Repr, DecidableEq

/-- Detected field record, from src.models.schemas.DetectedField. -/
structure DetectedField where
  name : String
  type : String
  css_selector : String
  xpath : String
  placeholder : Option String := none
  label : Option String := none
  selector : Option String := none
  description : Option String := none
  columns : Option (List String) := none
  options : Option (List OptionData) := none
deriving Repr, DecidableEq

/-- Processing of one option element inside _extract_select_options: the
value attribute defaulted to the empty string, the stripped inner text,
the two mutual fallbacks between value and text, and omission when both
stay empty. -/
def _process_select_option (o : Element) : Option OptionData :=
  let value := (pyAttr o "value").getD ""
  let text0 := o.innerText
  let text1 := if text0 ≠ "" then pyStrip text0 else ""
  let text := if text1 = "" ∧ value ≠ "" then value else text1
  let value2 := if value = "" ∧ text ≠ "" then text else value
  if value2 ≠ "" ∨ text ≠ "" then some { value := value2, text := text } else none

/-- Embedding of FieldDetectionService._extract_select_options: collects
the processed options of the option elements inside the select, in order,
returning none when the select has no option elements or none of them
survives processing. -/
def _extract_select_options (select_element : Element) : Option (List OptionData) :=
  let option_elements := select_element.queryAll "option"
  if option_elements.isEmpty then none
  else
    let options := option_elements.filterMap _process_select_option
    if options.isEmpty then none else some options

/-- Embedding of FieldDetectionService._generate_unique_selector: the id
attribute as a hash selector when truthy, else the tag with the name
attribute, else the evaluated nth-child path with the unknown fallback. -/
def _generate_unique_selector (element : Element) : String :=
  match pyAttr element "id" with
  | some element_id => "#" ++ element_id
  | none =>
    match pyAttr element "name" with
    | some name => element.tag ++ "[name=\"" ++ name ++ "\"]"
    | none =>
      if element.evalCssPath ≠ "" then element.evalCssPath else "unknown"

/-- Embedding of FieldDetectionService._generate_xpath: the evaluated
XPath with the unknown fallback. -/
def _generate_xpath (element : Element) : String :=
  if element.evalXPath ≠ "" then element.evalXPath else "//unknown"

/-- Placeholder, title, own-text and sentinel tail of the label fallback
chain of _extract_field_label. -/
def label_from_placeholder (element : Element) : String :=
  match pyAttr element "placeholder" with
  | some placeholder => pyTake (pyStrip placeholder) 50
  | none =>
    match pyAttr element "title" with
    | some title => pyTake (pyStrip title) 50
    | none =>
      let text := element.innerText
      if text ≠ "" ∧ pyStrip text ≠ "" then pyTake (pyStrip text) 50
      else "Campo sem label"

/-- Embedding of FieldDetectionService._extract_field_label: label element
associated through the id, then ancestor label, then placeholder, then
title, then own inner text, then the fixed sentinel. -/
def _extract_field_label (element : Element) (page : Page) : String :=
  let by_id : Option String :=
    match pyAttr element "id" with
    | some element_id =>
      match page.query ("label[for=\"" ++ element_id ++ "\"]") with
      | some label_element =>
        if pyStrip label_element.innerText ≠ "" then
          some (pyTake (pyStrip label_element.innerText) 50)
        else none
      | none => none
    | none => none
  match by_id with
  | some l => l
  | none =>
    match element.evalParentLabel with
    | some parent_label =>
      if parent_label ≠ "" then pyTake (pyStrip parent_label) 50
      else label_from_placeholder element
    | none => label_from_placeholder element

/-- Embedding of FieldDetectionService._create_field_from_element: builds
the DetectedField of one element, returning none when no CSS selector
could be generated; the legacy selector entry is assigned the same string
as the css_selector entry. -/
def _create_field_from_element (element : Element) (field_type : String) (page : Page) :
    Option DetectedField :=
  let tag_name := element.tag
  let css_selector := _generate_unique_selector element
  if css_selector = "" then none
  else
    let xpath := _generate_xpath element
    let text0 := if tag_name = "input" ∨ tag_name = "select" then "" else element.innerText
    let text := if text0 ≠ "" then pyTake (pyStrip text0) 100 else ""
    let attr_name := pyAttr element "name"
    let attr_id := pyAttr element "id"
    let attr_placeholder := pyAttr element "placeholder"
    let attr_title := pyAttr element "title"
    let label := _extract_field_label element page
    let field_name :=
      match attr_name with
      | some n => n
      | none =>
        match attr_id with
        | some i => i
        | none =>
          field_type ++ "_" ++
            pyTake (pyReplace (pyReplace (pyReplace css_selector " " "_") ">" "_") ":" "_") 20
    let options := if field_type = "select" then _extract_select_options element else none
    let description :=
      if text ≠ "" then text
      else
        match attr_placeholder with
        | some p => p
        | none =>
          match attr_title with
          | some t => t
          | none => label
    some { name := field_name
           type := field_type
           css_selector := css_selector
           xpath := xpath
           placeholder := attr_placeholder
           label := some label
           selector := some css_selector
           description := some description
           options := options }

/-- Input selector list of _detect_form_fields. -/
def input_selectors : List String :=
  ["input[type=\"text\"]",
   "input[type=\"email\"]",
   "input[type=\"password\"]",
   "input[type=\"number\"]",
   "input[type=\"tel\"]",
   "input[type=\"url\"]",
   "input[type=\"search\"]",
   "input[type=\"date\"]",
   "input[type=\"datetime-local\"]",
   "input[type=\"time\"]",
   "input[type=\"checkbox\"]",
   "input[type=\"radio\"]",
   "input[type=\"file\"]",
   "input.mat-datepicker-input",
   "input[matinput]",
   "input.mat-input-element"]

/-- Embedding of FieldDetectionService._detect_form_fields: for each input
selector in order, the visible matches turned into fields, then the
visible selects, then the visible textareas. -/
def _detect_form_fields (page : Page) : List DetectedField :=
  (input_selectors.flatMap fun sel =>
    ((page.queryAll sel).filter Element.visible).filterMap fun el =>
      _create_field_from_element el "input" page)
  ++ (((page.queryAll "select").filter Element.visible).filterMap fun el =>
      _create_field_from_element el "select" page)
  ++ (((page.queryAll "textarea").filter Element.visible).filterMap fun el =>
      _create_field_from_element el "textarea" page)

/-- Worker of _remove_duplicate_fields: keeps a field when its legacy
selector was not seen before, threading the set of seen selectors. -/
def removeDupAux (seen : List (Option String)) : List DetectedField → List DetectedField
  | [] => []
  | f :: rest =>
    if f.selector ∈ seen then removeDupAux seen rest
    else f :: removeDupAux (f.selector :: seen) rest

/-- Embedding of FieldDetectionService._remove_duplicate_fields: drops
every field whose selector already occurred earlier in the list. -/
def _remove_duplicate_fields (fields : List DetectedField) : List DetectedField :=
  removeDupAux [] fields

/-- Embedding of FieldDetectionService._detect_interactive_fields: the
form fields with duplicates removed, together with the detection method
string. -/
def _detect_interactive_fields (page : Page) : List DetectedField × String :=
  let detected_fields := _detect_form_fields page
  let unique_fields := _remove_duplicate_fields detected_fields
  let detection_method := "Heurísticas Playwright"
  if unique_fields.length = 0 then (unique_fields, "Nenhum campo encontrado")
  else (unique_fields, detection_method)

/-! ## field_detection_service: login wall classification and recovery -/

/-- Login URL indicator list of _is_login_page. -/
def login_wall_url_patterns : List String :=
  ["/login", "/signin", "/auth", "/authentication",
   "login.", "signin.", "auth.", "sso.",
   "login?", "signin?", "auth?"]

/-- Username selector used by _is_login_page. -/
def login_wall_username_selector : String :=
  "input[name*=\"user\"], input[name*=\"email\"], input[name*=\"login\"], input[id*=\"user\"], input[id*=\"email\"], input[id*=\"login\"]"

/-- Keyword list _is_login_page applies to the page body text. -/
def login_wall_keywords : List String :=
  ["login", "sign in", "entrar", "acesso", "authentication", "autenticação"]

/-- Keyword list _is_login_page applies to the page title. -/
def login_wall_title_keywords : List String :=
  ["login", "sign in", "entrar", "acesso"]

/-- Embedding of FieldDetectionService._is_login_page: the composite
signal combining the redirect test, the URL indicators, the login shaped
fields, the body keywords and the title keywords. -/
def _is_login_page (page : Page) (original_url current_url : String) : Bool :=
  let url_redirected := original_url ≠ current_url
  let url_indicates_login :=
    login_wall_url_patterns.any fun p => strContains (pyLower current_url) p
  let username_field := page.query login_wall_username_selector
  let password_field := page.query "input[type=\"password\"]"
  let has_login_fields := username_field.isSome && password_field.isSome
  let has_login_keywords :=
    login_wall_keywords.any fun k => strContains (pyLower page.bodyText) (pyLower k)
  let title_indicates_login :=
    login_wall_title_keywords.any fun k => strContains (pyLower page.title) (pyLower k)
  (url_redirected && url_indicates_login) ||
    (has_login_fields && (has_login_keywords || title_indicates_login))

/-- Ordered username selector list of _perform_auto_authentication. -/
def autoauth_username_selectors : List String :=
  ["input[name=\"username\"]",
   "input[name=\"user\"]",
   "input[name=\"email\"]",
   "input[name=\"login\"]",
   "input[id=\"username\"]",
   "input[id=\"user\"]",
   "input[id=\"email\"]",
   "input[id=\"login\"]",
   "input[type=\"text\"]",
   "input[type=\"email\"]"]

/-- Ordered submit selector list of _perform_auto_authentication. -/
def autoauth_submit_selectors : List String :=
  ["button[type=\"submit\"]",
   "input[type=\"submit\"]",
   "button:has-text(\"Login\")",
   "button:has-text(\"Sign in\")",
   "button:has-text(\"Entrar\")",
   "button:has-text(\"Acessar\")",
   ".oxd-button--main",
   "form button"]

/-- Selection loop of _perform_auto_authentication: each selector result
overwrites the loop variable, the loop breaks at the first visible match,
and when no match is visible the variable keeps the query result of the
last selector. -/
def pickFieldLoop (page : Page) : List String → Option Element → Option Element
  | [], last => last
  | sel :: rest, _ =>
    match page.query sel with
    | some field =>
      if field.visible then some field else pickFieldLoop page rest (some field)
    | none => pickFieldLoop page rest none

/-- Embedding of FieldDetectionService._perform_auto_authentication.  The
page_before argument is the page state on which the fields are located
and filled; page_after is the page state once the submission and the
bounded wait settled, on which the final verification queries the
password field.  The attempt reports success exactly when afterwards no
visible password field remains. -/
def _perform_auto_authentication (page_before page_after : Page)
    (credentials : AuthCredentials) : Bool :=
  let _ := credentials
  match pickFieldLoop page_before autoauth_username_selectors none with
  | none => false
  | some _username_field =>
    match page_before.query "input[type=\"password\"]" with
    | none => false
    | some password_field =>
      if !password_field.visible then false
      else
        let _submit_button := pickFieldLoop page_before autoauth_submit_selectors none
        match page_after.query "input[type=\"password\"]" with
        | some current_password_field => !current_password_field.visible
        | none => true

/-- Driver world for one field-detection call: whether a stored session
exists for the key and whether applying it succeeds, the page state after
the navigation to the requested URL, the page state once the automatic
authentication attempt has run on it, and the page state after the
re-navigation to the original URL. -/
structure DetectWorld where
  sessionExists : Bool
  sessionApplyOk : Bool
  page0 : Page
  pageAfterAuth : Page
  pageAfterRenav : Page

/-- Session preload step of detect_fields: the session-used flag is set
exactly when a username was supplied, a session exists for the key and
applying it to the context succeeded. -/
def compute_session_used (w : DetectWorld) (credentials : Option AuthCredentials) : Bool :=
  match credentials with
  | some _ => if w.sessionExists then w.sessionApplyOk else false
  | none => false

/-- Embedding of FieldDetectionService.detect_fields: session preload,
navigation, login wall classification, optional automatic authentication
with re-navigation and re-classification, and field extraction, returning
the fields, the detection method string and the session-used flag. -/
def detect_fields (w : DetectWorld) (url : String) (credentials : Option AuthCredentials) :
    List DetectedField × String × Bool :=
  let session_used := compute_session_used w credentials
  let original_url := url
  let current_url := w.page0.url
  let is_login_page := _is_login_page w.page0 original_url current_url
  if is_login_page then
    match credentials with
    | some cred =>
      let auth_success := _perform_auto_authentication w.page0 w.pageAfterAuth cred
      if auth_success then
        let final_url := w.pageAfterRenav.url
        let is_login_page2 := _is_login_page w.pageAfterRenav original_url final_url
        if is_login_page2 then
          ([], "Erro: Autenticação falhou - ainda na página de login", session_used)
        else
          let r := _detect_interactive_fields w.pageAfterRenav
          (r.1, r.2, session_used)
      else
        let r := _detect_interactive_fields w.pageAfterAuth
        (r.1, r.2 ++ " (página de login detectada)", session_used)
    | none =>
      let r := _detect_interactive_fields w.page0
      (r.1, r.2 ++ " (página de login detectada)", session_used)
  else
    let r := _detect_interactive_fields w.page0
    (r.1, r.2, session_used)

/-! ## Concrete pages and elements used by the witnesses and counterexamples -/

/-- Element constructor for leaf elements whose own query primitives find
nothing. -/
def mkElem (tag : String) (attrs : List (String × String)) (text : String) (vis : Bool) :
    Element :=
  Element.mk tag attrs text vis (fun _ => none) (fun _ => []) "" "" none

/-- Page-level query function built from a selector table. -/
def queryOf (entries : List (String × Element)) : String → Option Element :=
  fun s => (entries.find? fun e => e.fst == s).map Prod.snd

/-- Page-level query-all function built from a selector table. -/
def queryAllOf (entries : List (String × List Element)) : String → List Element :=
  fun s => ((entries.find? fun e => e.fst == s).map Prod.snd).getD []

/-- A visible logout link. -/
def logoutLink : Element := mkElem "a" [] "Logout" true

/-- A visible password input. -/
def pwInput : Element := mkElem "input" [("type", "password")] "" true

/-- A visible username input named username. -/
def userInput : Element := mkElem "input" [("name", "username")] "" true

/-- An invisible text input. -/
def hiddenTextInput : Element := mkElem "input" [("type", "text")] "" false

/-- An invisible submit button. -/
def hiddenSubmitButton : Element := mkElem "button" [("type", "submit")] "Entrar" false

/-- Post-submission page still on a login URL while showing a logout
indicator and no error indicator. -/
def c1page : Page :=
  { url := "https://example.com/login"
    title := "Login"
    bodyText := "Login"
    query := queryOf [("[data-testid*=\"logout\"]", logoutLink)]
    queryAll := fun _ => [] }

/-- Post-submission page away from the login URL on which no verification
signal fires: no success URL pattern, no error element, no post-login
element, a password field but no username field. -/
def c8page : Page :=
  { url := "https://example.com/private-area"
    title := ""
    bodyText := ""
    query := queryOf [("input[type=\"password\"]", pwInput)]
    queryAll := fun _ => [] }

/-- Page whose only text input is invisible and which has a password
field: the primary username selectors find nothing and the fallback picks
the invisible input. -/
def c4page : Page :=
  { url := "https://example.com/form"
    title := ""
    bodyText := ""
    query := queryOf [("input[type=\"password\"]", pwInput)]
    queryAll := queryAllOf
      [("input[type=\"text\"], input[type=\"email\"]", [hiddenTextInput])] }

/-- Credentials used by the concrete scenarios. -/
def demoCred : AuthCredentials := { username := "user", password := "pass" }

/-- Page whose first submit selector matches an invisible button and
which has a password field. -/
def c5page : Page :=
  { url := "https://example.com/form"
    title := ""
    bodyText := ""
    query := queryOf
      [("button[type=\"submit\"]", hiddenSubmitButton),
       ("input[type=\"password\"]", pwInput)]
    queryAll := fun _ => [] }

/-- Two visible generic inputs for the keyword detection scenario. -/
def plainInputA : Element := mkElem "input" [("type", "text")] "" true

/-- Second visible generic input for the keyword detection scenario. -/
def plainInputB : Element := mkElem "input" [("type", "password")] "" true

/-- Page on which no structural login selector matches, no form exists,
but the body text holds a login keyword and two inputs are present. -/
def c3page : Page :=
  { url := "https://example.com/welcome"
    title := "Welcome"
    bodyText := "Please login to continue"
    query := fun _ => none
    queryAll := queryAllOf
      [("input[type=\"text\"], input[type=\"email\"], input[type=\"password\"]",
        [plainInputA, plainInputB])] }

/-- A visible text input carrying an id, so its generated selector is the
hash selector of the id. -/
def dupInput : Element := mkElem "input" [("id", "field1"), ("type", "text")] "" true

/-- Page on which the same element is returned by two of the input
selectors, so the raw field list holds a duplicate. -/
def c6page : Page :=
  { url := "https://example.com/data"
    title := ""
    bodyText := ""
    query := fun _ => none
    queryAll := queryAllOf
      [("input[type=\"text\"]", [dupInput]),
       ("input.mat-datepicker-input", [dupInput])] }

/-- Option element with value BR and text Brazil. -/
def brOption : Element := mkElem "option" [("value", "BR")] "Brazil" true

/-- Option element with value US and text USA. -/
def usOption : Element := mkElem "option" [("value", "US")] "USA" true

/-- Option element with a value and no text. -/
def valueOnlyOption : Element := mkElem "option" [("value", "X")] "" true

/-- Option element with text and no value attribute. -/
def textOnlyOption : Element := mkElem "option" [] "Y" true

/-- Option element with neither value nor text. -/
def emptyOption : Element := mkElem "option" [] "" true

/-- Select element named country holding the Brazil and USA options. -/
def countrySelect : Element :=
  Element.mk "select" [("name", "country")] "" true (fun _ => none)
    (fun s => if s = "option" then [brOption, usOption] else []) "" "" none

/-- Select element exercising the value and text fallbacks and the
omission of fully empty options. -/
def fallbackSelect : Element :=
  Element.mk "select" [("id", "extras")] "" true (fun _ => none)
    (fun s => if s = "option" then [valueOnlyOption, textOnlyOption, emptyOption] else [])
    "" "" none

/-- Page holding exactly the country select. -/
def c7page : Page :=
  { url := "https://example.com/data"
    title := ""
    bodyText := ""
    query := fun _ => none
    queryAll := queryAllOf [("select", [countrySelect])] }

/-- DetectedField produced for the country select. -/
def c7field : DetectedField :=
  { name := "country"
    type := "select"
    css_selector := "select[name=\"country\"]"
    xpath := "//unknown"
    placeholder := none
    label := some "Campo sem label"
    selector := some "select[name=\"country\"]"
    description := some "Campo sem label"
    columns := none
    options := some [{ value := "BR", text := "Brazil" }, { value := "US", text := "USA" }] }

/-- Visible text input with an id, detected on the login wall page. -/
def c2detInput : Element := mkElem "input" [("id", "user_box"), ("type", "text")] "" true

/-- Login wall page: the current URL matches a login pattern after a
redirect, login shaped fields are present, and one visible text input is
available for extraction; the automatic authentication cannot locate a
username field on it because none of its exact username selectors match. -/
def c2loginPage : Page :=
  { url := "https://site.example/login"
    title := "Login"
    bodyText := "Login required"
    query := queryOf
      [("input[name*=\"user\"], input[name*=\"email\"], input[name*=\"login\"], input[id*=\"user\"], input[id*=\"email\"], input[id*=\"login\"]", userInput),
       ("input[type=\"password\"]", pwInput)]
    queryAll := queryAllOf [("input[type=\"text\"]", [c2detInput])] }

/-- Requested URL of the field-detection scenarios. -/
def c2url : String := "https://site.example/data"

/-- Field-detection world in which the first navigation lands on the
login wall and the automatic authentication fails to find a username
field, leaving the call on the login page. -/
def c2w : DetectWorld :=
  { sessionExists := false
    sessionApplyOk := false
    page0 := c2loginPage
    pageAfterAuth := c2loginPage
    pageAfterRenav := c2loginPage }

/-- Login wall page on which the automatic authentication succeeds: the
exact username selector matches a visible field and the password field is
visible. -/
def c2authPage : Page :=
  { url := "https://site.example/login"
    title := "Login"
    bodyText := "Login required"
    query := queryOf
      [("input[name*=\"user\"], input[name*=\"email\"], input[name*=\"login\"], input[id*=\"user\"], input[id*=\"email\"], input[id*=\"login\"]", userInput),
       ("input[name=\"username\"]", userInput),
       ("input[type=\"password\"]", pwInput)]
    queryAll := fun _ => [] }

/-- Page state after the successful submission: the password field is
gone, so the attempt verification reports success. -/
def c2afterPage : Page :=
  { url := "https://site.example/login"
    title := "Login"
    bodyText := "Loading"
    query := fun _ => none
    queryAll := fun _ => [] }

/-- Field-detection world in which the automatic authentication succeeds
but the re-navigation still lands on the login wall. -/
def c2w2 : DetectWorld :=
  { sessionExists := false
    sessionApplyOk := false
    page0 := c2authPage
    pageAfterAuth := c2afterPage
    pageAfterRenav := c2authPage }

/-- Page of the authentication scenario on which detection, filling and
submission all succeed. -/
def c10loginPage : Page :=
  { url := "https://site.example/login"
    title := "Login"
    bodyText := "Login"
    query := queryOf
      [("input[name=\"username\"]", userInput),
       ("input[type=\"password\"]", pwInput),
       ("button[type=\"submit\"]", hiddenSubmitButton)]
    queryAll := fun _ => [] }

/-- Post-submission page of the authentication scenario: still on the
login URL with the full login form present, so verification fails. -/
def c10afterPage : Page :=
  { url := "https://site.example/login"
    title := "Login"
    bodyText := "Login"
    query := queryOf
      [("input[type=\"password\"]", pwInput),
       ("input[name=\"username\"], input[name=\"user\"], input[name=\"email\"], input[type=\"email\"]", userInput)]
    queryAll := fun _ => [] }

/-- Authentication world in which the form is detected, filled and
submitted but verification fails. -/
def c10w : AuthWorld :=
  { pageFirstGoto := c10loginPage
    pageSecondGoto := c10loginPage
    pageAfterSubmit := c10afterPage
    submitWaitOk := true
    sessionSaveOk := true }

/-! ## Helper lemmas about deduplication and field creation -/

/-- Every field kept by the deduplication worker comes from the input
list and its selector was not among the already seen selectors. -/
lemma mem_removeDupAux (seen : List (Option String)) (l : List DetectedField) :
    ∀ f ∈ removeDupAux seen l, f ∈ l ∧ f.selector ∉ seen := by
  induction l generalizing seen with
  | nil => intro f hf; cases hf
  | cons a rest ih =>
    intro f hf
    simp only [removeDupAux] at hf
    by_cases h : a.selector ∈ seen
    · rw [if_pos h] at hf
      obtain ⟨h1, h2⟩ := ih seen f hf
      exact ⟨List.mem_cons_of_mem a h1, h2⟩
    · rw [if_neg h] at hf
      rcases List.mem_cons.mp hf with rfl | hf2
      · exact ⟨List.mem_cons_self _ _, h⟩
      · obtain ⟨h1, h2⟩ := ih _ f hf2
        exact ⟨List.mem_cons_of_mem a h1, fun hs => h2 (List.mem_cons_of_mem _ hs)⟩

/-- The deduplication worker output has pairwise distinct selectors. -/
lemma pairwise_removeDupAux (seen : List (Option String)) (l : List DetectedField) :
    (removeDupAux seen l).Pairwise (fun a b => a.selector ≠ b.selector) := by
  induction l generalizing seen with
  | nil => exact List.Pairwise.nil
  | cons a rest ih =>
    simp only [removeDupAux]
    by_cases h : a.selector ∈ seen
    · rw [if_pos h]; exact ih seen
    · rw [if_neg h]
      refine List.Pairwise.cons ?_ (ih _)
      intro b hb hab
      exact (mem_removeDupAux _ _ b hb).2 (hab ▸ List.mem_cons_self _ _)

/-- The deduplication worker output is a sublist of its input. -/
lemma sublist_removeDupAux (seen : List (Option String)) (l : List DetectedField) :
    (removeDupAux seen l).Sublist l := by
  induction l generalizing seen with
  | nil => exact List.Sublist.refl []
  | cons a rest ih =>
    simp only [removeDupAux]
    by_cases h : a.selector ∈ seen
    · rw [if_pos h]; exact List.Sublist.cons _ (ih seen)
    · rw [if_neg h]; exact List.Sublist.cons₂ _ (ih _)

/-- Every survivor of the deduplication worker is the first entry of the
input carrying its selector. -/
lemma find_first_removeDupAux (seen : List (Option String)) (l : List DetectedField) :
    ∀ g ∈ removeDupAux seen l,
      l.find? (fun x => decide (x.selector = g.selector)) = some g := by
  induction l generalizing seen with
  | nil => intro g hg; cases hg
  | cons a rest ih =>
    intro g hg
    simp only [removeDupAux] at hg
    by_cases h : a.selector ∈ seen
    · rw [if_pos h] at hg
      have hns := (mem_removeDupAux seen rest g hg).2
      have hne : a.selector ≠ g.selector := fun he => hns (he ▸ h)
      rw [List.find?_cons]
      simp only [decide_eq_false hne]
      exact ih seen g hg
    · rw [if_neg h] at hg
      rcases List.mem_cons.mp hg with rfl | hg2
      · rw [List.find?_cons]
        simp
      · have hns := (mem_removeDupAux _ rest g hg2).2
        have hne : a.selector ≠ g.selector :=
          fun he => hns (by rw [← he]; exact List.mem_cons_self _ _)
        rw [List.find?_cons]
        simp only [decide_eq_false hne]
        exact ih _ g hg2

/-- Every entry of the input has a representative with the same selector
among the survivors, unless its selector was already seen. -/
lemma exists_rep_removeDupAux (seen : List (Option String)) (l : List DetectedField) :
    ∀ f ∈ l, f.selector ∈ seen ∨
      ∃ g ∈ removeDupAux seen l, g.selector = f.selector := by
  induction l generalizing seen with
  | nil => intro f hf; cases hf
  | cons a rest ih =>
    intro f hf
    simp only [removeDupAux]
    by_cases h : a.selector ∈ seen
    · rw [if_pos h]
      rcases List.mem_cons.mp hf with rfl | hf2
      · exact Or.inl h
      · exact ih seen f hf2
    · rw [if_neg h]
      rcases List.mem_cons.mp hf with rfl | hf2
      · exact Or.inr ⟨f, List.mem_cons_self _ _, rfl⟩
      · rcases ih (a.selector :: seen) f hf2 with hmem | ⟨g, hg, he⟩
        · rcases List.mem_cons.mp hmem with he2 | hs
          · exact Or.inr ⟨a, List.mem_cons_self _ _, he2.symm⟩
          · exact Or.inl hs
        · exact Or.inr ⟨g, List.mem_cons_of_mem _ hg, he⟩

/-- Every field built by _create_field_from_element stores the generated
CSS selector in both its css_selector and its legacy selector entry. -/
lemma create_field_selector (el : Element) (t : String) (page : Page) (f : DetectedField)
    (h : _create_field_from_element el t page = some f) :
    f.selector = some f.css_selector := by
  by_cases hc : _generate_unique_selector el = ""
  · simp [_create_field_from_element, hc] at h
  · simp only [_create_field_from_element] at h
    rw [if_neg hc] at h
    injection h with h
    rw [← h]

/-- Every field produced by _detect_form_fields stores the generated CSS
selector in both its css_selector and its legacy selector entry. -/
lemma detect_form_fields_selector (page : Page) :
    ∀ f ∈ _detect_form_fields page, f.selector = some f.css_selector := by
  intro f hf
  simp only [_detect_form_fields, List.mem_append, List.mem_flatMap, List.mem_filterMap] at hf
  rcases hf with (⟨_, _, el, _, hc⟩ | ⟨el, _, hc⟩) | ⟨el, _, hc⟩ <;>
    exact create_field_selector el _ page f hc

/-- The field component of _detect_interactive_fields is the deduplicated
form field list. -/
lemma detect_interactive_fst (page : Page) :
    (_detect_interactive_fields page).1 =
      _remove_duplicate_fields (_detect_form_fields page) := by
  by_cases h : (_remove_duplicate_fields (_detect_form_fields page)).length = 0 <;>
    simp [_detect_interactive_fields, h]

/-! ## Claim theorems -/

/-- C1 counterexample: on a post-submission page whose URL contains the
login pattern and which simultaneously shows a logout indicator and no
error indicator, the verifier returns success, so the URL signal does not
outrank the structural signal and no failure short-circuit happens. -/
theorem C1_counterexample :
    verifier_is_still_on_login c1page.url = true ∧
    (c1page.query "[data-testid*=\"logout\"]").isSome = true ∧
    (_verify_authentication c1page).1 = true :=
  ⟨rfl, rfl, rfl⟩

/-- C1 amended: a post-submission URL containing a login pattern only
suppresses URL-based success classification; it does not short-circuit to
failure, and when a post-login indicator element is present while no
error indicator carries text, the verifier returns success, citing the
indicator: the structural signal outranks the URL signal. -/
theorem C1_url_login_with_logout_element_succeeds (page : Page) (sel : String)
    (h1 : verifier_is_still_on_login page.url = true)
    (h2 : verifier_error_hit page = none)
    (h3 : verifier_success_element page = some sel) :
    _verify_authentication page =
      (true, "Elementos de usuário autenticado detectados: " ++ sel) := by
  simp [_verify_authentication, h1, h2, h3]

/-- C1 witness: the amended claim applied to the concrete page on a login
URL with a logout indicator. -/
theorem C1_witness :
    _verify_authentication c1page =
      (true, "Elementos de usuário autenticado detectados: [data-testid*=\"logout\"]") :=
  C1_url_login_with_logout_element_succeeds c1page "[data-testid*=\"logout\"]" rfl rfl rfl

/-- C8: evaluation of the verifier at a page whose URL differs from the
pre-submission URL while no other signal fires.  The source never stores
the pre-submission URL: its final fallback compares the URL snapshot
taken at entry with a second read of the same page URL, so the
redirection branch can never fire and the verifier falls through to the
default failure instead of the success the specification describes. -/
theorem C8_redirect_fallback_dead :
    verifier_is_still_on_login c8page.url = false ∧
    verifier_url_success c8page.url = none ∧
    verifier_error_hit c8page = none ∧
    verifier_success_element c8page = none ∧
    c8page.url ≠ "https://example.com/login-form" ∧
    _verify_authentication c8page =
      (false, "Não foi possível confirmar o sucesso da autenticação") :=
  ⟨rfl, rfl, rfl, rfl, by decide, rfl⟩

/-- C4 counterexample: on a page whose only text input is invisible, no
primary username selector matches, the fallback still picks that
invisible input, and with a password field present the filler succeeds,
while a fallback restricted to visible inputs would have failed. -/
theorem C4_counterexample :
    (username_selectors.all fun sel => (c4page.query sel).isNone) = true ∧
    ((c4page.queryAll fill_fallback_selector).all fun e => !e.visible) = true ∧
    ((c4page.queryAll fill_fallback_selector).length ≠ 0) ∧
    ((_fill_credentials c4page demoCred).1).1 = true :=
  ⟨rfl, rfl, by decide, rfl⟩

/-- C4 amended: the filler fails exactly when the username location,
whose fallback is the first text or email input of the page regardless of
visibility, finds nothing, or when no input of type password exists; on
success it records click, clear and fill on the username field first and
on the password field, the first match of the password selector, second. -/
theorem C4_fill_failure_iff (page : Page) (credentials : AuthCredentials) :
    ((((_fill_credentials page credentials).1).1 = false) ↔
      (find_username_field page = none ∨ page.query "input[type=\"password\"]" = none)) ∧
    (∀ u p, find_username_field page = some u →
      page.query "input[type=\"password\"]" = some p →
      _fill_credentials page credentials =
        ((true, "Credenciais preenchidas com sucesso"),
         [FillAction.click u, FillAction.fill u "", FillAction.fill u credentials.username,
          FillAction.click p, FillAction.fill p "", FillAction.fill p credentials.password])) := by
  constructor
  · cases hu : find_username_field page with
    | none => simp [_fill_credentials, hu]
    | some u =>
      cases hp : page.query "input[type=\"password\"]" with
      | none => simp [_fill_credentials, hu, hp]
      | some p => simp [_fill_credentials, hu, hp]
  · intro u p hu hp
    simp [_fill_credentials, hu, hp]

/-- C4 witness: the amended claim applied to the concrete page with the
invisible fallback input. -/
theorem C4_witness :
    ((((_fill_credentials c4page demoCred).1).1 = false) ↔
      (find_username_field c4page = none ∨
        c4page.query "input[type=\"password\"]" = none)) ∧
    (∀ u p, find_username_field c4page = some u →
      c4page.query "input[type=\"password\"]" = some p →
      _fill_credentials c4page demoCred =
        ((true, "Credenciais preenchidas com sucesso"),
         [FillAction.click u, FillAction.fill u "", FillAction.fill u demoCred.username,
          FillAction.click p, FillAction.fill p "", FillAction.fill p demoCred.password])) :=
  C4_fill_failure_iff c4page demoCred

/-- C5 counterexample: the first submit selector match is an invisible
button; the executor clicks it and reports success citing the button
instead of falling back to pressing Enter in the password field as the
visible-match reading of the claim would require. -/
theorem C5_counterexample :
    c5page.query "button[type=\"submit\"]" = some hiddenSubmitButton ∧
    hiddenSubmitButton.visible = false ∧
    (c5page.query "input[type=\"password\"]").isSome = true ∧
    _submit_form c5page true =
      ((true, "Formulário submetido via botão: button[type=\"submit\"]"),
       [SubmitAction.clickButton "button[type=\"submit\"]" hiddenSubmitButton]) :=
  ⟨rfl, rfl, rfl, rfl⟩

/-- C5 amended: the executor clicks the first submit selector match
regardless of visibility, its result never depends on the outcome of the
network-idle wait because the timeout is swallowed, it falls back to
pressing Enter in the password field when no selector matches, and it
fails exactly when no selector matches and no password field exists. -/
theorem C5_submit_behaviour (page : Page) (wait_idle_ok : Bool) :
    ((((_submit_form page wait_idle_ok).1).1 = false) ↔
      ((∀ sel ∈ submit_selectors, page.query sel = none) ∧
        page.query "input[type=\"password\"]" = none)) ∧
    (_submit_form page wait_idle_ok = _submit_form page (!wait_idle_ok)) ∧
    ((∀ sel ∈ submit_selectors, page.query sel = none) →
      ∀ pf, page.query "input[type=\"password\"]" = some pf →
        _submit_form page wait_idle_ok =
          ((true, "Formulário submetido via Enter"), [SubmitAction.pressEnter pf])) ∧
    (∀ sel b,
      submit_selectors.findSome? (fun s => (page.query s).map fun x => (s, x)) = some (sel, b) →
      _submit_form page wait_idle_ok =
        ((true, "Formulário submetido via botão: " ++ sel),
         [SubmitAction.clickButton sel b])) := by
  have hnone_iff :
      submit_selectors.findSome? (fun s => (page.query s).map fun x => (s, x)) = none ↔
        ∀ sel ∈ submit_selectors, page.query sel = none := by
    rw [List.findSome?_eq_none_iff]
    constructor
    · intro h sel hs
      have := h sel hs
      cases hq : page.query sel with
      | none => rfl
      | some x => rw [hq] at this; cases this
    · intro h sel hs
      rw [h sel hs]; rfl
  refine ⟨?_, rfl, ?_, ?_⟩
  · cases hfs : submit_selectors.findSome? (fun s => (page.query s).map fun x => (s, x)) with
    | some v =>
      obtain ⟨sel, b⟩ := v
      constructor
      · intro hfalse
        rw [_submit_form, hfs] at hfalse
        cases hfalse
      · intro ⟨hall, _⟩
        rw [hnone_iff.mpr hall] at hfs
        cases hfs
    | none =>
      cases hp : page.query "input[type=\"password\"]" with
      | some pf =>
        constructor
        · intro hfalse
          rw [_submit_form, hfs, hp] at hfalse
          cases hfalse
        · rintro ⟨-, hpn⟩
          simp [hp] at hpn
      | none =>
        constructor
        · intro _
          exact ⟨hnone_iff.mp hfs, rfl⟩
        · intro _
          rw [_submit_form, hfs, hp]
  · intro hall pf hp
    rw [_submit_form, hnone_iff.mpr hall, hp]
  · intro sel b hfs
    rw [_submit_form, hfs]

/-- C5 witness: the amended claim applied concretely, showing the Enter
fallback reporting success on a page with a password field and no submit
button match. -/
theorem C5_witness :
    _submit_form c4page true =
      ((true, "Formulário submetido via Enter"), [SubmitAction.pressEnter pwInput]) :=
  (C5_submit_behaviour c4page true).2.2.1 (by intro sel hs; fin_cases hs <;> rfl) pwInput rfl

/-- C9 counterexample: two distinct practical URLs, differing only in a
question mark versus a slash, produce the same session filename for the
same username, so the key derivation is not collision-free. -/
theorem C9_counterexample :
    ("https://example.com/app?page" : String) ≠ "https://example.com/app/page" ∧
    session_file_name "https://example.com/app?page" "admin" =
      session_file_name "https://example.com/app/page" "admin" :=
  ⟨by decide, rfl⟩

/-- C9 amended: the key derivation is a pure function of the URL and the
username, so save, load, exists and delete with equal inputs address the
same session record: a save is observed by exists and load under the same
key and removed by delete under the same key.  Collision freedom does not
hold: distinct pairs can share a filename. -/
theorem C9_session_key_roundtrip (fs : SessionFS) (dir url username ts ss : String) :
    session_exists (save_session fs dir url username ts ss).1 dir url username = true ∧
    load_session (save_session fs dir url username ts ss).1 dir url username =
      some { url := url, username := username, timestamp := ts, storage_state := ss } ∧
    session_exists
      (delete_session (save_session fs dir url username ts ss).1 dir url username).1
      dir url username = false := by
  have hread : ∀ (fs2 : SessionFS) (p : String) (d : SessionData),
      fsRead (fsWrite fs2 p d) p = some d := by
    intro fs2 p d
    simp [fsRead, fsWrite]
  have hdel : ∀ (fs2 : SessionFS) (p : String), fsRead (fsDelete fs2 p) p = none := by
    intro fs2 p
    cases hf : (fsDelete fs2 p).find? (fun e => e.fst == p) with
    | none => simp [fsRead, hf]
    | some e =>
      have h1 := List.find?_some hf
      have h2 := List.mem_of_find?_eq_some hf
      rw [fsDelete] at h2
      have h3 := (List.mem_filter.mp h2).2
      simp only [beq_iff_eq] at h1
      simp only [decide_eq_true_eq] at h3
      exact absurd h1 h3
  refine ⟨?_, ?_, ?_⟩
  · simp [session_exists, save_session, hread]
  · simp [load_session, save_session, hread]
  · simp [delete_session, session_exists, save_session, hread, hdel]

/-- C3: on a page where no strategy 1 selector matches, no form has the
strategy 2 user and password structure, but a login keyword occurs in the
body text while at least two text, email or password inputs are present,
the detector short-circuits on the keyword strategy and returns detected
with an evidence message citing the keyword. -/
theorem C3_keyword_strategy_short_circuit (page : Page) (kw : String)
    (h1 : (login_selectors.all fun sel => (page.query sel).isNone) = true)
    (h2 : ((page.queryAll "form").all fun form =>
        (form.query login_form_structure_selector).isNone ||
        (form.query "input[type=\"password\"]").isNone) = true)
    (hkw : kw ∈ login_keywords)
    (h3 : strContains (pyLower page.bodyText) (pyLower kw) = true)
    (h4 : 2 ≤ (page.queryAll login_inputs_selector).length) :
    ∃ k ∈ login_keywords,
      _detect_login_form page = (true, "Formulário detectado pela palavra-chave: " ++ k) := by
  have h1' : ∀ sel ∈ login_selectors, (page.query sel).isNone = true := List.all_eq_true.mp h1
  have s1 : detector_strategy1 page = none := by
    rw [detector_strategy1, List.findSome?_eq_none_iff]
    intro sel hs
    simp [h1' sel hs]
  have horange : detector_orangehrm page = false := by
    have hu := h1' "input[name=\"username\"]" (by simp [login_selectors])
    rw [detector_orangehrm]
    simp [Option.isNone_iff_eq_none.mp hu]
  have s2 : detector_strategy2 page = none := by
    rw [detector_strategy2, List.findSome?_eq_none_iff]
    intro form hf
    have hb := List.all_eq_true.mp h2 form hf
    cases hA : form.query login_form_structure_selector with
    | none => simp [hA]
    | some u =>
      cases hB : form.query "input[type=\"password\"]" with
      | none => simp [hB]
      | some v =>
        rw [hA, hB] at hb
        simp at hb
  have s3 : ∃ k ∈ login_keywords, detector_strategy3 page = some k := by
    cases hfs : detector_strategy3 page with
    | none =>
      exfalso
      simp only [detector_strategy3] at hfs
      rw [List.findSome?_eq_none_iff] at hfs
      have hnone := hfs kw hkw
      rw [if_pos h3, if_pos h4] at hnone
      cases hnone
    | some k =>
      simp only [detector_strategy3] at hfs
      obtain ⟨l₁, a, l₂, heq, hfa, _⟩ := List.findSome?_eq_some_iff.mp hfs
      have hmem : a ∈ login_keywords := by
        rw [heq]
        exact List.mem_append_right _ (List.mem_cons_self _ _)
      have hka : k = a := by
        by_cases hc : strContains (pyLower page.bodyText) (pyLower a) = true
        · rw [if_pos hc] at hfa
          by_cases hc2 : 2 ≤ (page.queryAll login_inputs_selector).length
          · rw [if_pos hc2] at hfa
            injection hfa with hfa
            exact hfa.symm
          · rw [if_neg hc2] at hfa
            cases hfa
        · rw [if_neg hc] at hfa
          cases hfa
      refine ⟨k, hka ▸ hmem, ?_⟩
      simp only [detector_strategy3]

  obtain ⟨k, hkmem, hk⟩ := s3
  refine ⟨k, hkmem, ?_⟩
  simp [_detect_login_form, s1, horange, s2, hk]

/-- C3 witness: the keyword strategy applied to the concrete page whose
only signal is the login keyword with two inputs present. -/
theorem C3_witness :
    ∃ k ∈ login_keywords,
      _detect_login_form c3page =
        (true, "Formulário detectado pela palavra-chave: " ++ k) :=
  C3_keyword_strategy_short_circuit c3page "login" rfl rfl
    (by simp [login_keywords]) rfl (by decide)

/-- C2 counterexample: a call with credentials whose first navigation
lands on a login wall and whose automatic authentication fails its own
verification neither re-navigates nor returns the empty failure result;
although the page is still a login wall, it returns the login page fields
with an ordinary method string. -/
theorem C2_counterexample :
    _is_login_page c2w.page0 c2url c2w.page0.url = true ∧
    _perform_auto_authentication c2w.page0 c2w.pageAfterAuth demoCred = false ∧
    _is_login_page c2w.pageAfterAuth c2url c2w.pageAfterAuth.url = true ∧
    (detect_fields c2w c2url (some demoCred)).1 ≠ [] ∧
    (detect_fields c2w c2url (some demoCred)).2.1 ≠
      "Erro: Autenticação falhou - ainda na página de login" :=
  ⟨rfl, rfl, rfl, by decide, by decide⟩

/-- C2 amended: on a first navigation classified as a login wall, a call
with credentials whose automatic authentication reports success
re-navigates and re-classifies, returning the empty list with the
explicit still-on-login failure result when the second classification is
still a login wall; when the automatic authentication reports failure the
call instead extracts the fields of the post-attempt login page; a call
without credentials extracts the fields of the login page itself. -/
theorem C2_login_wall_recovery (w : DetectWorld) (url : String) (cred : AuthCredentials)
    (hwall : _is_login_page w.page0 url w.page0.url = true) :
    (_perform_auto_authentication w.page0 w.pageAfterAuth cred = true →
      _is_login_page w.pageAfterRenav url w.pageAfterRenav.url = true →
      detect_fields w url (some cred) =
        ([], "Erro: Autenticação falhou - ainda na página de login",
          compute_session_used w (some cred))) ∧
    (_perform_auto_authentication w.page0 w.pageAfterAuth cred = false →
      detect_fields w url (some cred) =
        ((_detect_interactive_fields w.pageAfterAuth).1,
         (_detect_interactive_fields w.pageAfterAuth).2 ++ " (página de login detectada)",
         compute_session_used w (some cred))) ∧
    (detect_fields w url none =
      ((_detect_interactive_fields w.page0).1,
       (_detect_interactive_fields w.page0).2 ++ " (página de login detectada)",
       compute_session_used w none)) := by
  refine ⟨?_, ?_, ?_⟩
  · intro hauth hstill
    simp [detect_fields, hwall, hauth, hstill]
  · intro hauth
    simp [detect_fields, hwall, hauth]
  · simp [detect_fields, hwall]

/-- C2 witness: the amended claim applied to the concrete world in which
the automatic authentication succeeds but the re-navigation still lands
on the login wall, yielding the empty failure result. -/
theorem C2_witness :
    detect_fields c2w2 c2url (some demoCred) =
      ([], "Erro: Autenticação falhou - ainda na página de login", false) :=
  (C2_login_wall_recovery c2w2 c2url demoCred rfl).1 rfl rfl

/-- C6: in every extraction result no two fields share the same
css_selector, the surviving fields are a sublist of the raw field list so
insertion order is preserved, every survivor is the first raw field
carrying its selector, and every raw field has a representative among the
survivors with the same selector. -/
theorem C6_dedup_invariant (page : Page) :
    ((_detect_interactive_fields page).1).Pairwise
      (fun a b => a.css_selector ≠ b.css_selector) ∧
    ((_detect_interactive_fields page).1).Sublist (_detect_form_fields page) ∧
    (∀ g ∈ (_detect_interactive_fields page).1,
      (_detect_form_fields page).find? (fun x => decide (x.selector = g.selector)) = some g) ∧
    (∀ f ∈ _detect_form_fields page, ∃ g ∈ (_detect_interactive_fields page).1,
      g.selector = f.selector) := by
  rw [detect_interactive_fst]
  simp only [_remove_duplicate_fields]
  refine ⟨?_, sublist_removeDupAux _ _, find_first_removeDupAux _ _, ?_⟩
  · have hp := pairwise_removeDupAux [] (_detect_form_fields page)
    refine List.Pairwise.imp_of_mem ?_ hp
    intro a b ha hb hne hcss
    have ha2 := detect_form_fields_selector page a
      ((sublist_removeDupAux [] (_detect_form_fields page)).subset ha)
    have hb2 := detect_form_fields_selector page b
      ((sublist_removeDupAux [] (_detect_form_fields page)).subset hb)
    apply hne
    rw [ha2, hb2, hcss]
  · intro f hf
    rcases exists_rep_removeDupAux [] (_detect_form_fields page) f hf with hmem | h
    · cases hmem
    · exact h

/-- C6 witness: the dedup invariant applied to the concrete page on which
the same input is matched by two selectors, so the raw list holds two
entries and the result keeps one. -/
theorem C6_witness :
    (_detect_form_fields c6page).length = 2 ∧
    ((_detect_interactive_fields c6page).1).length = 1 ∧
    (((_detect_interactive_fields c6page).1).Pairwise
      (fun a b => a.css_selector ≠ b.css_selector) ∧
    ((_detect_interactive_fields c6page).1).Sublist (_detect_form_fields c6page) ∧
    (∀ g ∈ (_detect_interactive_fields c6page).1,
      (_detect_form_fields c6page).find?
        (fun x => decide (x.selector = g.selector)) = some g) ∧
    (∀ f ∈ _detect_form_fields c6page, ∃ g ∈ (_detect_interactive_fields c6page).1,
      g.selector = f.selector)) :=
  ⟨by decide, by decide, C6_dedup_invariant c6page⟩

/-- Every option surviving _process_select_option has a non-empty value
or a non-empty text. -/
lemma process_option_nonempty (a : Element) (o : OptionData)
    (h : _process_select_option a = some o) : o.value ≠ "" ∨ o.text ≠ "" := by
  simp only [_process_select_option] at h
  repeat' split at h
  all_goals first
    | exact Option.noConfusion h
    | (obtain rfl := Option.some.inj h; assumption)

/-- C7: field detection on the page holding the country select returns
exactly one select field whose options are the ordered Brazil and USA
pairs; the fallback select shows the value for an empty text, the text
for a missing value, and the omission of an option with neither; in
general the extractor output is the ordered per-option processing of the
full option list, and every returned option keeps a non-empty value or
text. -/
theorem C7_select_options :
    _detect_interactive_fields c7page = ([c7field], "Heurísticas Playwright") ∧
    c7field.options =
      some [{ value := "BR", text := "Brazil" }, { value := "US", text := "USA" }] ∧
    _extract_select_options fallbackSelect =
      some [{ value := "X", text := "X" }, { value := "Y", text := "Y" }] ∧
    (∀ e : Element, _extract_select_options e = none ∨
      _extract_select_options e =
        some ((e.queryAll "option").filterMap _process_select_option)) ∧
    (∀ e : Element, ∀ o ∈ (_extract_select_options e).getD [],
      o.value ≠ "" ∨ o.text ≠ "") := by
  refine ⟨rfl, rfl, rfl, ?_, ?_⟩
  · intro e
    by_cases h0 : (e.queryAll "option").isEmpty
    · left
      simp [_extract_select_options, h0]
    · by_cases h1 : ((e.queryAll "option").filterMap _process_select_option).isEmpty
      · left
        simp [_extract_select_options, h0, h1]
      · right
        simp [_extract_select_options, h0, h1]
  · intro e o ho
    cases hr : _extract_select_options e with
    | none => rw [hr] at ho; cases ho
    | some opts =>
      rw [hr] at ho
      simp only [Option.getD_some] at ho
      have hform : opts = (e.queryAll "option").filterMap _process_select_option := by
        by_cases h0 : (e.queryAll "option").isEmpty
        · simp [_extract_select_options, h0] at hr
        · by_cases h1 : ((e.queryAll "option").filterMap _process_select_option).isEmpty
          · simp [_extract_select_options, h0, h1] at hr
          · simp [_extract_select_options, h0, h1] at hr
            exact hr.symm
      rw [hform] at ho
      obtain ⟨a, _, ha⟩ := List.mem_filterMap.mp ho
      exact process_option_nonempty a o ha

/-- C7 witness: the general option conjuncts applied to the country
select, whose processed option list is the Brazil and USA pairs. -/
theorem C7_witness :
    (_extract_select_options countrySelect = none ∨
      _extract_select_options countrySelect =
        some ((countrySelect.queryAll "option").filterMap _process_select_option)) ∧
    (∀ o ∈ (_extract_select_options countrySelect).getD [],
      o.value ≠ "" ∨ o.text ≠ "") :=
  ⟨(C7_select_options.2.2.2.1) countrySelect, (C7_select_options.2.2.2.2) countrySelect⟩

/-- C10: whenever the login form is detected, the outcome record of
test_authentication carries the overall success flag in its form_filled
and submission_successful entries; in particular an attempt whose filling
and submission stages succeeded but whose verification failed reports
success, form_filled and submission_successful all false. -/
theorem C10_outcome_flags_follow_success (w : AuthWorld) (credentials : AuthCredentials)
    (hdet : (_detect_login_form w.pageFirstGoto).1 = true) :
    ((test_authentication w credentials).form_filled =
        (test_authentication w credentials).success ∧
      (test_authentication w credentials).submission_successful =
        (test_authentication w credentials).success) ∧
    (((_fill_credentials w.pageSecondGoto credentials).1).1 = true →
      ((_submit_form w.pageSecondGoto w.submitWaitOk).1).1 = true →
      (_verify_authentication w.pageAfterSubmit).1 = false →
      (test_authentication w credentials).success = false ∧
      (test_authentication w credentials).form_filled = false ∧
      (test_authentication w credentials).submission_successful = false) := by
  constructor
  · simp [test_authentication, hdet]
  · intro hfill hsubmit hverify
    have hsucc : (perform_authentication w credentials).1 = false := by
      cases hd2 : (_detect_login_form w.pageSecondGoto).1
      · simp [perform_authentication, hd2]
      · simp [perform_authentication, hd2, hfill, hsubmit, hverify]
    simp [test_authentication, hdet, hsucc]

/-- C10 witness: the flag collapse applied to the concrete world in which
detection, filling and submission succeed while verification fails. -/
theorem C10_witness :
    ((_fill_credentials c10w.pageSecondGoto demoCred).1).1 = true ∧
    ((_submit_form c10w.pageSecondGoto c10w.submitWaitOk).1).1 = true ∧
    (_verify_authentication c10w.pageAfterSubmit).1 = false ∧
    (test_authentication c10w demoCred).success = false ∧
    (test_authentication c10w demoCred).form_filled = false ∧
    (test_authentication c10w demoCred).submission_successful = false := by
  have h := (C10_outcome_flags_follow_success c10w demoCred rfl).2 rfl rfl rfl
  exact ⟨rfl, rfl, rfl, h.1, h.2.1, h.2.2⟩

/-- C9 witness: the round trip applied to one concrete key on the empty
session directory. -/
theorem C9_witness :
    session_exists
      (save_session [] "sessions" "https://example.com/app" "admin" "t0" "state").1
      "sessions" "https://example.com/app" "admin" = true ∧
    load_session
      (save_session [] "sessions" "https://example.com/app" "admin" "t0" "state").1
      "sessions" "https://example.com/app" "admin" =
      some { url := "https://example.com/app", username := "admin", timestamp := "t0",
             storage_state := "state" } ∧
    session_exists
      (delete_session
        (save_session [] "sessions" "https://example.com/app" "admin" "t0" "state").1
        "sessions" "https://example.com/app" "admin").1
      "sessions" "https://example.com/app" "admin" = false :=
  C9_session_key_roundtrip [] "sessions" "https://example.com/app" "admin" "t0" "state"
